import Mathlib

/-!
Verification of the domain_check repository: a shallow embedding of the
candidate generator, the three lookup classifiers (DNS, WHOIS, RDAP) and the
scan drivers found in src/dns_check.py, src/domain_finder.py,
src/rdap_checker.py and src/rdap_streamlit.py, together with theorems that
settle the specification claims about them.

Strings are modelled as `List Char`; the external services (DNS resolver,
WHOIS server, RDAP HTTP endpoint) are modelled as oracles mapping a query to
an outcome, following the external-interface section of the spec.
-/

namespace DomainCheck

/-- Tri-state availability verdict from the specification (spec section 3). -/
inductive Verdict
  | Available
  | Taken
  | Unknown
deriving DecidableEq, Repr

/-- The reading of the scripts' booleans documented in the source itself:
`True` = "available" / "Likely available", `False` = "TAKEN" ("Returns False
if domain is TAKEN", "Otherwise, assume it's taken").  The scripts expose no
third value. -/
def boolVerdict (b : Bool) : Verdict :=
  if b then Verdict.Available else Verdict.Taken

/-- The whitespace characters stripped by Python's `str.strip()`. -/
def isPythonSpace (c : Char) : Bool :=
  c = ' ' || c = '\t' || c = '\n' || c = '\r' || c = '\x0b' || c = '\x0c'

/-- Python `s.strip()`: remove leading and trailing whitespace. -/
def pyStrip (s : List Char) : List Char :=
  ((s.dropWhile isPythonSpace).reverse.dropWhile isPythonSpace).reverse

/-- Python `s.split(".")`: split on every dot; `[] ↦ [[]]`. -/
def splitOnDot : List Char → List (List Char)
  | [] => [[]]
  | c :: rest =>
    if c = '.' then [] :: splitOnDot rest
    else
      match splitOnDot rest with
      | [] => [[c]]
      | p :: ps => (c :: p) :: ps

/-- Python `itertools.product(alphabet, repeat := n)` joined back into words:
all length-`n` words over `alphabet`, first coordinate varying slowest, i.e.
lexicographically when `alphabet` is sorted. -/
def itertoolsProduct (alphabet : List Char) : Nat → List (List Char)
  | 0 => [[]]
  | n + 1 => alphabet.flatMap (fun c => (itertoolsProduct alphabet n).map (fun w => c :: w))

/-! ## src/dns_check.py -/

namespace dns_check

/-- Outcome of `dns.resolver.resolve(domain, 'A')` as seen by the script:
either it returns address records, or it raises a `DNSException`.  Both
`NXDOMAIN` and every other resolution failure (timeout, server failure) are
subclasses of `DNSException`; the script distinguishes nothing finer. -/
inductive DNSOutcome
  | resolved
  | nxdomain
  | otherFailure
deriving DecidableEq, Repr

/-- `is_domain_available`: `try: resolve(domain,'A'); return False` and
`except dns.exception.DNSException: return True`.  Every `DNSException`
(NXDOMAIN, timeout, SERVFAIL, ...) lands in the same handler. -/
def is_domain_available : DNSOutcome → Bool
  | DNSOutcome.resolved => false
  | DNSOutcome.nxdomain => true
  | DNSOutcome.otherFailure => true

/-- `chars = string.ascii_lowercase`. -/
def chars : List Char := "abcdefghijklmnopqrstuvwxyz".toList

/-- `domain_names`, generalised over the alphabet and the `range(lo, hi)`
bounds (the script uses `range(1, 3)`):
`for i in range(lo, hi): for comb in itertools.product(alphabet, repeat=i)`. -/
def domain_names (alphabet : List Char) (lo hi : Nat) : List (List Char) :=
  (List.range' lo (hi - lo)).flatMap (fun L => itertoolsProduct alphabet L)

/-- `tlds = ["io", "com", "ai", "de", "me", "app"]`. -/
def tlds : List (List Char) :=
  ["io".toList, "com".toList, "ai".toList, "de".toList, "me".toList, "app".toList]

/-- The candidate enumeration of the script's final loop:
`for d in domain_names: for t in tlds: f"{d}.{t}"`, kept as (label, tld)
pairs. -/
def candidates (alphabet : List Char) (lo hi : Nat) (tldList : List (List Char)) :
    List (List Char × List Char) :=
  (domain_names alphabet lo hi).flatMap (fun d => tldList.map (fun t => (d, t)))

end dns_check

/-! ## src/domain_finder.py -/

namespace domain_finder

/-- The parts of a `python-whois` response object the script reads:
`w.text` (the raw WHOIS text, possibly `None`) and the truthiness of the
parsed `w.domain_name` field. -/
structure WhoisRecord where
  text : Option (List Char)
  domain_name : Bool
deriving DecidableEq, Repr

/-- Outcome of `whois.whois(domain)`: a response object, or any raised
exception (timeout, rate limit, server error). -/
inductive WhoisOutcome
  | ok (w : WhoisRecord)
  | exn
deriving DecidableEq, Repr

/-- `check_domain_whois`: lower-case `(w.text or "")`, return `True` when it
contains one of the "not found" markers, `True` when `w.domain_name` is not
parsed, `False` otherwise; any exception yields `False`. -/
def check_domain_whois : WhoisOutcome → Bool
  | WhoisOutcome.exn => false
  | WhoisOutcome.ok w =>
    let raw_text := (w.text.getD []).map Char.toLower
    if "no match".toList <:+: raw_text ∨ "not found".toList <:+: raw_text ∨
        "no data found".toList <:+: raw_text then
      true
    else if !w.domain_name then
      true
    else
      false

/-- The result-accumulation loop of `main`, factored over the list of domains
it checks: one `(Domain, Available)` row per domain, in order. -/
def scan_results (domains : List (List Char)) (whois : List Char → WhoisOutcome) :
    List (List Char × Bool) :=
  domains.map (fun d => (d, check_domain_whois (whois d)))

/-- The full driver of `main`: all `domain_length`-letter labels over a-z,
suffixed with `.tld`, each checked once. -/
def main_results (tld : List Char) (domain_length : Nat)
    (whois : List Char → WhoisOutcome) : List (List Char × Bool) :=
  scan_results
    ((itertoolsProduct dns_check.chars domain_length).map (fun name => name ++ '.' :: tld))
    whois

end domain_finder

/-! ## src/rdap_checker.py and src/rdap_streamlit.py -/

/-- Outcome of `requests.get(rdap_url, timeout=10)`: an HTTP status code, or
a raised `requests.exceptions.RequestException` (network error, timeout). -/
inductive HttpOutcome
  | status (code : Nat)
  | exn
deriving DecidableEq, Repr

/-- `parts = domain.strip().split(".")`, shared by both RDAP scripts. -/
def domainParts (domain : List Char) : List (List Char) :=
  splitOnDot (pyStrip domain)

/-- `tld = parts[-1].lower()`, shared by both RDAP scripts. -/
def domainTld (domain : List Char) : List Char :=
  ((domainParts domain).getLast?.getD []).map Char.toLower

namespace rdap_checker

/-- The `ValueError(f"Invalid domain format: {domain}")` raised by
`check_domain_rdap` in src/rdap_checker.py. -/
inductive RdapError
  | valueError
deriving DecidableEq, Repr

/-- `RDAP_SERVERS` of src/rdap_checker.py. -/
def RDAP_SERVERS : List (List Char × List Char) :=
  [("io".toList, "https://rdap.nic.io/domain/".toList),
   ("ai".toList, "https://rdap.nic.ai/domain/".toList),
   ("app".toList, "https://rdap.nic.app/domain/".toList),
   ("xyz".toList, "https://rdap.nic.xyz/domain/".toList),
   ("dev".toList, "https://rdap.nic.dev/domain/".toList)]

/-- `check_domain_rdap` of src/rdap_checker.py, with the HTTP transport as an
oracle from URL to outcome.  Fewer than two dot-separated parts raises
`ValueError` (the `Except.error` case); an unconfigured TLD returns `False`;
otherwise `GET base_url + domain` is classified 404 ↦ `True`,
200 ↦ `False`, anything else ↦ `False`, exception ↦ `False`. -/
def check_domain_rdap (http : List Char → HttpOutcome) (domain : List Char) :
    Except RdapError Bool :=
  if (domainParts domain).length < 2 then
    Except.error RdapError.valueError
  else
    match RDAP_SERVERS.lookup (domainTld domain) with
    | none => Except.ok false
    | some base_url =>
      match http (base_url ++ domain) with
      | HttpOutcome.status 404 => Except.ok true
      | HttpOutcome.status 200 => Except.ok false
      | HttpOutcome.status _ => Except.ok false
      | HttpOutcome.exn => Except.ok false

/-- The `test_domains` list of the script's `__main__` scan driver. -/
def test_domains : List (List Char) :=
  ["google.io".toList, "something.ai".toList, "randomstuff.ai".toList,
   "mybrandnewdomain.io".toList, "example.app".toList, "unusedxyz999.app".toList,
   "coolproject.dev".toList, "random999999.dev".toList,
   "nonexistentexample123.xyz".toList]

end rdap_checker

namespace rdap_streamlit

/-- `RDAP_SERVERS` of src/rdap_streamlit.py (same table as the checker). -/
def RDAP_SERVERS : List (List Char × List Char) :=
  [("io".toList, "https://rdap.nic.io/domain/".toList),
   ("ai".toList, "https://rdap.nic.ai/domain/".toList),
   ("app".toList, "https://rdap.nic.app/domain/".toList),
   ("xyz".toList, "https://rdap.nic.xyz/domain/".toList),
   ("dev".toList, "https://rdap.nic.dev/domain/".toList)]

/-- `check_domain_rdap` of src/rdap_streamlit.py: identical to the checker's
version except that fewer than two parts returns `False` instead of raising. -/
def check_domain_rdap (http : List Char → HttpOutcome) (domain : List Char) : Bool :=
  if (domainParts domain).length < 2 then
    false
  else
    match RDAP_SERVERS.lookup (domainTld domain) with
    | none => false
    | some base_url =>
      match http (base_url ++ domain) with
      | HttpOutcome.status 404 => true
      | HttpOutcome.status 200 => false
      | HttpOutcome.status _ => false
      | HttpOutcome.exn => false

/-- The URL a given domain is checked against, when one is consulted at all:
`some (base_url ++ domain)` for a well-formed domain with a configured TLD,
`none` otherwise.  Used to state that the scan depends on the transport only
through these URLs. -/
def rdapUrlOf (domain : List Char) : Option (List Char) :=
  if (domainParts domain).length < 2 then none
  else (RDAP_SERVERS.lookup (domainTld domain)).map (fun base_url => base_url ++ domain)

/-- `possible_domains` generated by `main`: every `domain_length`-letter label
over a-z, joined with `"." + chosen_tld`. -/
def possible_domains (chosen_tld : List Char) (domain_length : Nat) : List (List Char) :=
  (itertoolsProduct dns_check.chars domain_length).map (fun c => c ++ '.' :: chosen_tld)

/-- The scan loop of `main`: `results_available` collects, in generation
order, exactly the domains whose RDAP check returned `True`. -/
def results_available (chosen_tld : List Char) (domain_length : Nat)
    (http : List Char → HttpOutcome) : List (List Char) :=
  (possible_domains chosen_tld domain_length).filter (fun dom => check_domain_rdap http dom)

end rdap_streamlit

/-! ## Theorems -/

/-- `dropWhile` keeps a list on which the predicate never holds. -/
theorem dropWhile_eq_self_of_none (p : Char → Bool) (s : List Char)
    (h : ∀ c ∈ s, p c = false) : s.dropWhile p = s := by
  cases s with
  | nil => rfl
  | cons c rest => simp [List.dropWhile_cons, h c (by simp)]

/-- `pyStrip` is the identity on strings without whitespace. -/
theorem pyStrip_eq_self (s : List Char) (h : ∀ c ∈ s, isPythonSpace c = false) :
    pyStrip s = s := by
  unfold pyStrip
  rw [dropWhile_eq_self_of_none _ _ h,
    dropWhile_eq_self_of_none _ _ (fun c hc => h c (List.mem_reverse.mp hc)),
    List.reverse_reverse]

/-- Splitting a dot-free string yields the string itself as single part. -/
theorem splitOnDot_of_not_mem (s : List Char) (h : '.' ∉ s) : splitOnDot s = [s] := by
  induction s with
  | nil => rfl
  | cons c rest ih =>
    have hc : c ≠ '.' := fun hc => h (hc ▸ List.mem_cons_self c rest)
    have hrest : '.' ∉ rest := fun hr => h (List.mem_cons_of_mem c hr)
    simp only [splitOnDot]
    rw [if_neg hc, ih hrest]

/-- Splitting peels off a dot-free head part at the first dot. -/
theorem splitOnDot_append (a b : List Char) (ha : '.' ∉ a) :
    splitOnDot (a ++ '.' :: b) = a :: splitOnDot b := by
  induction a with
  | nil => simp [splitOnDot]
  | cons c a ih =>
    have hc : c ≠ '.' := fun hc => ha (hc ▸ List.mem_cons_self c a)
    have ha2 : '.' ∉ a := fun hr => ha (List.mem_cons_of_mem c hr)
    rw [List.cons_append]
    simp only [splitOnDot]
    rw [if_neg hc, ih ha2]

/-- A well-formed `label ++ "." ++ tld` domain splits into exactly the two
parts the RDAP scripts expect. -/
theorem domainParts_label_tld (label tld : List Char)
    (hl : '.' ∉ label) (ht : '.' ∉ tld)
    (hwl : ∀ c ∈ label, isPythonSpace c = false)
    (hwt : ∀ c ∈ tld, isPythonSpace c = false) :
    domainParts (label ++ '.' :: tld) = [label, tld] := by
  have hws : ∀ c ∈ label ++ '.' :: tld, isPythonSpace c = false := by
    intro c hc
    rcases List.mem_append.mp hc with h | h
    · exact hwl c h
    · rcases List.mem_cons.mp h with h | h
      · subst h; decide
      · exact hwt c h
  unfold domainParts
  rw [pyStrip_eq_self _ hws, splitOnDot_append _ _ hl, splitOnDot_of_not_mem _ ht]

/-- The checker's RDAP lookup can only raise on a domain with fewer than two
dot-separated parts; on every other input, whatever the transport does, it
returns normally. -/
theorem check_rdap_ok_of_parts (http : List Char → HttpOutcome) (domain : List Char)
    (h : ¬ (domainParts domain).length < 2) :
    ∃ b, rdap_checker.check_domain_rdap http domain = Except.ok b := by
  unfold rdap_checker.check_domain_rdap
  rw [if_neg h]
  split
  · exact ⟨false, rfl⟩
  · split
    · exact ⟨true, rfl⟩
    · exact ⟨false, rfl⟩
    · exact ⟨false, rfl⟩
    · exact ⟨false, rfl⟩

/-- C1: the spec requires the DNS variant to map NXDOMAIN to Available,
successful resolution to Taken, and any other resolution failure to Unknown —
in particular a transient resolver error must never be classified Available.
The code resolves successfully to `False` and maps NXDOMAIN to `True`
(Available), but its single `except dns.exception.DNSException` handler also
maps every other failure (timeout, server failure) to `True`: the transient
failure is classified exactly as Available, the very conflation the spec
forbids. -/
theorem C1_dns_transient_error_classified_available :
    dns_check.is_domain_available dns_check.DNSOutcome.resolved = false ∧
    dns_check.is_domain_available dns_check.DNSOutcome.nxdomain = true ∧
    dns_check.is_domain_available dns_check.DNSOutcome.otherFailure = true ∧
    boolVerdict (dns_check.is_domain_available dns_check.DNSOutcome.otherFailure) =
      Verdict.Available ∧
    Verdict.Available ≠ Verdict.Unknown := by
  decide

/-- C2: the spec requires a WHOIS transport failure (any raised exception) to
be classified Unknown, not Taken.  The code's `except Exception` handler
returns `False` — the very same boolean it returns for a confirmed-taken
record, and the value its own comments document as "assume it's taken" — so a
transport failure is classified as Taken, and no distinct Unknown exists. -/
theorem C2_whois_transport_failure_classified_taken :
    domain_finder.check_domain_whois domain_finder.WhoisOutcome.exn = false ∧
    domain_finder.check_domain_whois
      (domain_finder.WhoisOutcome.ok
        ⟨some "domain name: example.com registrar: acme".toList, true⟩) = false ∧
    boolVerdict (domain_finder.check_domain_whois domain_finder.WhoisOutcome.exn) =
      Verdict.Taken ∧
    Verdict.Taken ≠ Verdict.Unknown := by
  decide

/-- C10: whenever the raw WHOIS text contains, in any letter case, one of the
markers "no match", "not found" or "no data found", `check_domain_whois`
returns `True` regardless of the parsed `domain_name` field: the lower-cased
substring check is evaluated first and short-circuits the
registration-identifier check. -/
theorem C10_whois_marker_precedence (w : domain_finder.WhoisRecord) (s : List Char)
    (hs : s <:+: w.text.getD [])
    (hm : s.map Char.toLower = "no match".toList ∨
      s.map Char.toLower = "not found".toList ∨
      s.map Char.toLower = "no data found".toList) :
    domain_finder.check_domain_whois (domain_finder.WhoisOutcome.ok w) = true := by
  have hmap : s.map Char.toLower <:+: (w.text.getD []).map Char.toLower :=
    hs.map Char.toLower
  unfold domain_finder.check_domain_whois
  rcases hm with h | h | h <;> rw [h] at hmap <;> simp at hmap <;> simp [hmap]

/-- C6: no lookup/classification call lets an exception escape a scan driver.
The only raise in the four scripts is the `ValueError` of
src/rdap_checker.py's `check_domain_rdap`, reachable only on a domain with
fewer than two dot-separated parts; every domain a scan driver passes in has
the shape `label ++ "." ++ tld` (or comes from the hard-coded `test_domains`
list), so every call returns normally, whatever the transport does, and no
scan is ever aborted — the WHOIS and DNS checkers catch all their lookups'
exceptions and are total by construction. -/
theorem C6_scan_driver_no_exception (label tld : List Char)
    (http : List Char → HttpOutcome)
    (hl : '.' ∉ label) (ht : '.' ∉ tld)
    (hwl : ∀ c ∈ label, isPythonSpace c = false)
    (hwt : ∀ c ∈ tld, isPythonSpace c = false) :
    (∃ b, rdap_checker.check_domain_rdap http (label ++ '.' :: tld) = Except.ok b) ∧
    (∀ d ∈ rdap_checker.test_domains, ∃ b,
      rdap_checker.check_domain_rdap http d = Except.ok b) := by
  constructor
  · apply check_rdap_ok_of_parts
    rw [domainParts_label_tld label tld hl ht hwl hwt]
    simp
  · intro d hd
    apply check_rdap_ok_of_parts
    fin_cases hd <;> decide

/-- Witness for C6: label "aa", TLD "io", transport always failing, plus the
first entry of the checker's own test scan: both calls return normally. -/
theorem C6_witness :
    (rdap_checker.check_domain_rdap (fun _ => HttpOutcome.exn)
        ("aa".toList ++ '.' :: "io".toList)).isOk = true ∧
    (rdap_checker.check_domain_rdap (fun _ => HttpOutcome.exn)
        "google.io".toList).isOk = true := by
  have h := C6_scan_driver_no_exception "aa".toList "io".toList
    (fun _ => HttpOutcome.exn) (by decide) (by decide) (by decide) (by decide)
  obtain ⟨b1, hb1⟩ := h.1
  obtain ⟨b2, hb2⟩ := h.2 "google.io".toList (by decide)
  rw [hb1, hb2]
  exact ⟨rfl, rfl⟩

/-- C9: on any input with at least two dot-separated parts the two
`check_domain_rdap` functions agree (the checker returns `ok` of exactly the
streamlit variant's boolean, given the same transport and hence identical
outcomes for the identical constructed URL); on fewer than two parts the
checker raises `ValueError` while the streamlit variant returns `False`. -/
theorem C9_rdap_checker_streamlit_agree (domain : List Char)
    (http : List Char → HttpOutcome) :
    (2 ≤ (domainParts domain).length →
      rdap_checker.check_domain_rdap http domain =
        Except.ok (rdap_streamlit.check_domain_rdap http domain)) ∧
    ((domainParts domain).length < 2 →
      rdap_checker.check_domain_rdap http domain =
          Except.error rdap_checker.RdapError.valueError ∧
        rdap_streamlit.check_domain_rdap http domain = false) := by
  have hRS : rdap_streamlit.RDAP_SERVERS = rdap_checker.RDAP_SERVERS := rfl
  constructor
  · intro h
    unfold rdap_checker.check_domain_rdap rdap_streamlit.check_domain_rdap
    rw [hRS, if_neg (by omega), if_neg (by omega)]
    rcases hl2 : rdap_checker.RDAP_SERVERS.lookup (domainTld domain) with _ | base
    · rfl
    · rcases hh : http (base ++ domain) with c | _
      · simp only [hh]
        all_goals split <;> simp_all
      · simp only [hh]
  · intro h
    unfold rdap_checker.check_domain_rdap rdap_streamlit.check_domain_rdap
    rw [if_pos h, if_pos h]
    exact ⟨rfl, rfl⟩

/-- Witness for C9: "aa.io" under a transport that always answers 404: the
checker returns `ok true`, matching the streamlit variant's `true`. -/
theorem C9_witness :
    rdap_checker.check_domain_rdap (fun _ => HttpOutcome.status 404) "aa.io".toList =
      Except.ok (rdap_streamlit.check_domain_rdap (fun _ => HttpOutcome.status 404)
        "aa.io".toList) :=
  (C9_rdap_checker_streamlit_agree "aa.io".toList
    (fun _ => HttpOutcome.status 404)).1 (by decide)

/-- C3 counterexample: the claim says any status other than 404/200 is mapped
to Unknown — a verdict distinct from both Available and Taken.  But on
"aa.io" both RDAP functions return for HTTP 503 exactly what they return for
HTTP 200 (the boolean `False`, which the source documents as TAKEN): there is
no third value, so 503 is not mapped to a distinct Unknown. -/
theorem C3_counterexample_503_conflated_with_200 :
    rdap_checker.check_domain_rdap (fun _ => HttpOutcome.status 503) "aa.io".toList =
      rdap_checker.check_domain_rdap (fun _ => HttpOutcome.status 200) "aa.io".toList ∧
    rdap_streamlit.check_domain_rdap (fun _ => HttpOutcome.status 503) "aa.io".toList =
      rdap_streamlit.check_domain_rdap (fun _ => HttpOutcome.status 200) "aa.io".toList ∧
    rdap_streamlit.check_domain_rdap (fun _ => HttpOutcome.status 503) "aa.io".toList =
      false ∧
    boolVerdict false = Verdict.Taken ∧ Verdict.Taken ≠ Verdict.Unknown :=
  ⟨rfl, rfl, rfl, rfl, by decide⟩

/-- C3 as amended: on a well-formed domain whose TLD is configured, both RDAP
variants map HTTP 404 to `True` (Available), HTTP 200 to `False` (Taken), and
any other status or a transport failure also to `False` — the same boolean as
Taken; the code has no distinct Unknown verdict. -/
theorem C3_amended_rdap_status_mapping (domain : List Char) (c : Nat)
    (h2 : ¬ (domainParts domain).length < 2)
    (hconf : (rdap_checker.RDAP_SERVERS.lookup (domainTld domain)).isSome)
    (hc4 : c ≠ 404) (hc2 : c ≠ 200) :
    rdap_checker.check_domain_rdap (fun _ => HttpOutcome.status 404) domain =
      Except.ok true ∧
    rdap_checker.check_domain_rdap (fun _ => HttpOutcome.status 200) domain =
      Except.ok false ∧
    rdap_checker.check_domain_rdap (fun _ => HttpOutcome.status c) domain =
      Except.ok false ∧
    rdap_checker.check_domain_rdap (fun _ => HttpOutcome.exn) domain =
      Except.ok false ∧
    rdap_streamlit.check_domain_rdap (fun _ => HttpOutcome.status 404) domain = true ∧
    rdap_streamlit.check_domain_rdap (fun _ => HttpOutcome.status 200) domain = false ∧
    rdap_streamlit.check_domain_rdap (fun _ => HttpOutcome.status c) domain = false ∧
    rdap_streamlit.check_domain_rdap (fun _ => HttpOutcome.exn) domain = false := by
  have hRS : rdap_streamlit.RDAP_SERVERS = rdap_checker.RDAP_SERVERS := rfl
  obtain ⟨base, hb⟩ := Option.isSome_iff_exists.mp hconf
  refine ⟨?_, ?_, ?_, ?_, ?_, ?_, ?_, ?_⟩ <;>
    · simp only [rdap_checker.check_domain_rdap, rdap_streamlit.check_domain_rdap, hRS]
      rw [if_neg h2]
      simp only [hb]

/-- Witness for C3 (amended): the mapping evaluated on "aa.io" with the other
status instantiated to 503. -/
theorem C3_witness :
    rdap_checker.check_domain_rdap (fun _ => HttpOutcome.status 404) "aa.io".toList =
      Except.ok true ∧
    rdap_checker.check_domain_rdap (fun _ => HttpOutcome.status 503) "aa.io".toList =
      Except.ok false ∧
    rdap_streamlit.check_domain_rdap (fun _ => HttpOutcome.exn) "aa.io".toList = false := by
  have h := C3_amended_rdap_status_mapping "aa.io".toList 503
    (by decide) (by decide) (by decide) (by decide)
  exact ⟨h.1, h.2.2.1, h.2.2.2.2.2.2.2⟩

/-- C4 counterexample: the claim says an unconfigured TLD yields the verdict
Unknown and never silently defaults to Available or Taken.  On "aa.com"
(".com" has no entry in `RDAP_SERVERS`) both RDAP functions return `False` —
the boolean their own docstrings document as TAKEN — even under a transport
that would answer 404/Available if it were ever consulted; there is no
distinct Unknown value. -/
theorem C4_counterexample_unconfigured_tld_taken :
    rdap_checker.check_domain_rdap (fun _ => HttpOutcome.status 404) "aa.com".toList =
      Except.ok false ∧
    rdap_streamlit.check_domain_rdap (fun _ => HttpOutcome.status 404) "aa.com".toList =
      false ∧
    boolVerdict false = Verdict.Taken ∧ Verdict.Taken ≠ Verdict.Unknown :=
  ⟨rfl, rfl, rfl, by decide⟩

/-- C4 as amended: on a well-formed domain whose TLD has no configured RDAP
endpoint, both RDAP variants return `False` — the same boolean the code uses
for Taken — regardless of the transport (no HTTP outcome can change it); they
never return `True` (Available), and no distinct Unknown exists. -/
theorem C4_amended_unconfigured_tld (domain : List Char)
    (http : List Char → HttpOutcome)
    (h2 : ¬ (domainParts domain).length < 2)
    (hunconf : rdap_checker.RDAP_SERVERS.lookup (domainTld domain) = none) :
    rdap_checker.check_domain_rdap http domain = Except.ok false ∧
    rdap_streamlit.check_domain_rdap http domain = false := by
  have hRS : rdap_streamlit.RDAP_SERVERS = rdap_checker.RDAP_SERVERS := rfl
  constructor
  · unfold rdap_checker.check_domain_rdap
    rw [if_neg h2]
    simp only [hunconf]
  · unfold rdap_streamlit.check_domain_rdap
    rw [hRS, if_neg h2]
    simp only [hunconf]

/-- Witness for C4 (amended): "aa.com" under a transport answering 404. -/
theorem C4_witness :
    rdap_checker.check_domain_rdap (fun _ => HttpOutcome.status 404) "aa.com".toList =
      Except.ok false ∧
    rdap_streamlit.check_domain_rdap (fun _ => HttpOutcome.status 404) "aa.com".toList =
      false :=
  C4_amended_unconfigured_tld "aa.com".toList (fun _ => HttpOutcome.status 404)
    (by decide) (by decide)

/-- C7 counterexample: the claim requires the verdict of a candidate whose
lookup fails to be Unknown.  Scanning [aa.io, ab.io, ac.io] where the lookup
for ab.io raises (times out) and the other two return taken records does
yield three verdicts without aborting, but ab.io's verdict is the boolean
`False` — the very value the code documents as "assume it's taken" — and not
a distinct Unknown. -/
theorem C7_counterexample_failed_lookup_not_unknown :
    domain_finder.scan_results
        ["aa.io".toList, "ab.io".toList, "ac.io".toList]
        (fun d => if d = "ab.io".toList then domain_finder.WhoisOutcome.exn
          else domain_finder.WhoisOutcome.ok
            ⟨some "domain name: taken.example".toList, true⟩) =
      [("aa.io".toList, false), ("ab.io".toList, false), ("ac.io".toList, false)] ∧
    boolVerdict false = Verdict.Taken ∧ Verdict.Taken ≠ Verdict.Unknown := by
  decide

/-- C7 as amended: for every finite candidate list and every assignment of
upstream outcomes, the WHOIS scan produces exactly one verdict per candidate,
in order, and a candidate whose lookup raises receives the verdict `False`
(the same boolean the code uses for Taken, not a distinct Unknown); the scan
never aborts early. -/
theorem C7_amended_partial_failure (cands : List (List Char))
    (whois : List Char → domain_finder.WhoisOutcome) :
    (domain_finder.scan_results cands whois).map Prod.fst = cands ∧
    (domain_finder.scan_results cands whois).length = cands.length ∧
    (∀ d ∈ cands, whois d = domain_finder.WhoisOutcome.exn →
      (d, false) ∈ domain_finder.scan_results cands whois) := by
  refine ⟨?_, ?_, ?_⟩
  · simp [domain_finder.scan_results, Function.comp_def]
  · simp [domain_finder.scan_results]
  · intro d hd hexn
    unfold domain_finder.scan_results
    refine List.mem_map.mpr ⟨d, hd, ?_⟩
    rw [hexn]
    rfl

/-- Witness for C7 (amended): the three-candidate scenario with ab.io's
lookup raising: three verdicts, ab.io's being `False`. -/
theorem C7_witness :
    (domain_finder.scan_results
        ["aa.io".toList, "ab.io".toList, "ac.io".toList]
        (fun d => if d = "ab.io".toList then domain_finder.WhoisOutcome.exn
          else domain_finder.WhoisOutcome.ok
            ⟨some "domain name: taken.example".toList, true⟩)).length = 3 ∧
    ("ab.io".toList, false) ∈ domain_finder.scan_results
        ["aa.io".toList, "ab.io".toList, "ac.io".toList]
        (fun d => if d = "ab.io".toList then domain_finder.WhoisOutcome.exn
          else domain_finder.WhoisOutcome.ok
            ⟨some "domain name: taken.example".toList, true⟩) := by
  have h := C7_amended_partial_failure
    ["aa.io".toList, "ab.io".toList, "ac.io".toList]
    (fun d => if d = "ab.io".toList then domain_finder.WhoisOutcome.exn
      else domain_finder.WhoisOutcome.ok
        ⟨some "domain name: taken.example".toList, true⟩)
  exact ⟨h.2.1.trans rfl, h.2.2 "ab.io".toList (by decide) (by decide)⟩

/-- The WHOIS scan depends on the WHOIS service only through its responses on
the scanned candidates. -/
theorem scan_results_congr (cands : List (List Char))
    (w₁ w₂ : List Char → domain_finder.WhoisOutcome)
    (h : ∀ d ∈ cands, w₁ d = w₂ d) :
    domain_finder.scan_results cands w₁ = domain_finder.scan_results cands w₂ :=
  List.map_congr_left fun d hd => by rw [h d hd]

/-- The streamlit RDAP check consults the transport only at the candidate's
constructed URL. -/
theorem check_rdap_st_congr (d : List Char) (h₁ h₂ : List Char → HttpOutcome)
    (h : (rdap_streamlit.rdapUrlOf d).map h₁ = (rdap_streamlit.rdapUrlOf d).map h₂) :
    rdap_streamlit.check_domain_rdap h₁ d = rdap_streamlit.check_domain_rdap h₂ d := by
  by_cases h2 : (domainParts d).length < 2
  · unfold rdap_streamlit.check_domain_rdap
    rw [if_pos h2, if_pos h2]
  · unfold rdap_streamlit.check_domain_rdap
    rw [if_neg h2, if_neg h2]
    rcases hb : rdap_streamlit.RDAP_SERVERS.lookup (domainTld d) with _ | base
    · rfl
    · have hurl : rdap_streamlit.rdapUrlOf d = some (base ++ d) := by
        unfold rdap_streamlit.rdapUrlOf
        rw [if_neg h2, hb]
        rfl
      rw [hurl] at h
      have h' : h₁ (base ++ d) = h₂ (base ++ d) := Option.some.inj h
      simp only [h']

/-- C8: both scan drivers are deterministic functions of their configuration
and of the upstream responses on the scanned candidates: two runs whose
upstream services answer identically per candidate produce identical reports,
element for element and in identical order. -/
theorem C8_identical_scans (cands : List (List Char))
    (w₁ w₂ : List Char → domain_finder.WhoisOutcome)
    (tld : List Char) (L : Nat) (h₁ h₂ : List Char → HttpOutcome)
    (hw : ∀ d ∈ cands, w₁ d = w₂ d)
    (hh : ∀ d ∈ rdap_streamlit.possible_domains tld L,
      (rdap_streamlit.rdapUrlOf d).map h₁ = (rdap_streamlit.rdapUrlOf d).map h₂) :
    domain_finder.scan_results cands w₁ = domain_finder.scan_results cands w₂ ∧
    rdap_streamlit.results_available tld L h₁ =
      rdap_streamlit.results_available tld L h₂ := by
  constructor
  · exact scan_results_congr cands w₁ w₂ hw
  · unfold rdap_streamlit.results_available
    apply List.filter_congr
    intro d hd
    rw [check_rdap_st_congr d h₁ h₂ (hh d hd)]

/-- Witness for C8: the WHOIS oracles differ on zz.io (never scanned) but
agree on the candidate aa.io; the HTTP oracles differ on the empty URL (never
constructed) but agree on every constructed URL of the one-letter .io scan.
Both pairs of runs produce identical reports. -/
theorem C8_witness :
    domain_finder.scan_results ["aa.io".toList]
        (fun d => if d = "zz.io".toList then domain_finder.WhoisOutcome.exn
          else domain_finder.WhoisOutcome.ok ⟨none, false⟩) =
      domain_finder.scan_results ["aa.io".toList]
        (fun _ => domain_finder.WhoisOutcome.ok ⟨none, false⟩) ∧
    rdap_streamlit.results_available "io".toList 1
        (fun u => if u = [] then HttpOutcome.exn else HttpOutcome.status 404) =
      rdap_streamlit.results_available "io".toList 1
        (fun _ => HttpOutcome.status 404) :=
  C8_identical_scans ["aa.io".toList]
    (fun d => if d = "zz.io".toList then domain_finder.WhoisOutcome.exn
      else domain_finder.WhoisOutcome.ok ⟨none, false⟩)
    (fun _ => domain_finder.WhoisOutcome.ok ⟨none, false⟩)
    "io".toList 1
    (fun u => if u = [] then HttpOutcome.exn else HttpOutcome.status 404)
    (fun _ => HttpOutcome.status 404)
    (by decide) (by decide)

/-- The product list has exactly `|alphabet| ^ L` entries. -/
theorem length_itertoolsProduct (A : List Char) (L : Nat) :
    (itertoolsProduct A L).length = A.length ^ L := by
  induction L with
  | zero => rfl
  | succ n ih =>
    simp only [itertoolsProduct, List.length_flatMap, Function.comp_def,
      List.length_map, ih]
    rw [List.map_const', List.sum_const_nat]
    ring

/-- Every word produced for length `L` has length `L`. -/
theorem length_of_mem_itertoolsProduct (A : List Char) (L : Nat) :
    ∀ w ∈ itertoolsProduct A L, w.length = L := by
  induction L with
  | zero =>
    intro w hw
    simp only [itertoolsProduct, List.mem_singleton] at hw
    simp [hw]
  | succ n ih =>
    intro w hw
    simp only [itertoolsProduct, List.mem_flatMap, List.mem_map] at hw
    obtain ⟨c, _, v, hv, rfl⟩ := hw
    simp [ih v hv]

/-- Over an alphabet of distinct symbols the product list has no duplicates. -/
theorem nodup_itertoolsProduct (A : List Char) (hA : A.Nodup) (L : Nat) :
    (itertoolsProduct A L).Nodup := by
  induction L with
  | zero => simp [itertoolsProduct]
  | succ n ih =>
    simp only [itertoolsProduct]
    refine List.nodup_flatMap.mpr ⟨?_, ?_⟩
    · intro c _
      exact ih.map fun x y hxy => by simpa using hxy
    · refine hA.imp ?_
      intro a b hab x hx hy
      simp only [List.mem_map] at hx hy
      obtain ⟨u, _, rfl⟩ := hx
      obtain ⟨v, _, hvy⟩ := hy
      exact hab (List.head_eq_of_cons_eq hvy.symm ▸ rfl)

/-- Pairwise order on a concatenation of blocks: each block ordered
internally, and every pair of blocks ordered across. -/
theorem pairwise_flatMap_blocks (l : List Char) (f : Char → List (List Char))
    (R : List Char → List Char → Prop)
    (h1 : ∀ c ∈ l, (f c).Pairwise R)
    (h2 : l.Pairwise fun a b => ∀ x ∈ f a, ∀ y ∈ f b, R x y) :
    (l.flatMap f).Pairwise R := by
  induction l with
  | nil => simp
  | cons c l ih =>
    simp only [List.flatMap_cons]
    rw [List.pairwise_append]
    obtain ⟨hcl, hl⟩ := List.pairwise_cons.mp h2
    refine ⟨h1 c (by simp), ih (fun d hd => h1 d (List.mem_cons_of_mem c hd)) hl, ?_⟩
    intro x hx y hy
    obtain ⟨b, hb, hyb⟩ := List.mem_flatMap.mp hy
    exact hcl b hb x hx y hyb

/-- Over a strictly sorted alphabet the product list is strictly
lexicographically sorted (and in particular in lexicographic order). -/
theorem pairwise_lex_itertoolsProduct (A : List Char)
    (hA : A.Pairwise (· < ·)) (L : Nat) :
    (itertoolsProduct A L).Pairwise (List.Lex (· < ·)) := by
  induction L with
  | zero => simp [itertoolsProduct]
  | succ n ih =>
    simp only [itertoolsProduct]
    apply pairwise_flatMap_blocks
    · intro c _
      exact List.pairwise_map.mpr (ih.imp fun h => List.Lex.cons h)
    · refine hA.imp ?_
      intro a b hab x hx y hy
      simp only [List.mem_map] at hx hy
      obtain ⟨u, _, rfl⟩ := hx
      obtain ⟨v, _, rfl⟩ := hy
      exact List.Lex.rel hab

/-- The label sequence has `Σ |alphabet| ^ L` entries over the length range. -/
theorem length_domain_names (A : List Char) (lo hi : Nat) :
    (dns_check.domain_names A lo hi).length =
      ((List.range' lo (hi - lo)).map fun l => A.length ^ l).sum := by
  unfold dns_check.domain_names
  rw [List.length_flatMap]
  congr 1
  exact List.map_congr_left fun L _ => length_itertoolsProduct A L

/-- A (label, tld) pair is enumerated exactly when the label is generated and
the tld is configured. -/
theorem mem_candidates (A : List Char) (lo hi : Nat) (T : List (List Char))
    (d t : List Char) :
    (d, t) ∈ dns_check.candidates A lo hi T ↔
      d ∈ dns_check.domain_names A lo hi ∧ t ∈ T := by
  unfold dns_check.candidates
  simp only [List.mem_flatMap, List.mem_map, Prod.mk.injEq]
  constructor
  · rintro ⟨d', hd', t', ht', rfl, rfl⟩
    exact ⟨hd', ht'⟩
  · rintro ⟨hd, ht⟩
    exact ⟨d, hd, t, ht, rfl, rfl⟩

/-- Total candidate count: labels × TLDs. -/
theorem length_candidates (A : List Char) (lo hi : Nat) (T : List (List Char)) :
    (dns_check.candidates A lo hi T).length =
      ((List.range' lo (hi - lo)).map fun l => A.length ^ l).sum * T.length := by
  unfold dns_check.candidates
  rw [List.length_flatMap]
  simp only [Function.comp_def, List.length_map]
  rw [List.map_const', List.sum_const_nat, length_domain_names]

/-- C5: for every (strictly sorted) alphabet, length `L`, length range and
TLD list, the generator emits exactly `|alphabet| ^ L` length-`L` labels,
without duplicates, in lexicographic order; every generated label is paired
with every configured TLD exactly as enumerated, and the total candidate
count is `(Σ |alphabet| ^ L over the range) × |TLDs|`. -/
theorem C5_generator_complete (A : List Char) (L lo hi : Nat) (T : List (List Char))
    (hA : A.Pairwise (· < ·)) :
    (itertoolsProduct A L).length = A.length ^ L ∧
    (∀ w ∈ itertoolsProduct A L, w.length = L) ∧
    (itertoolsProduct A L).Nodup ∧
    (itertoolsProduct A L).Pairwise (List.Lex (· < ·)) ∧
    (∀ d t, (d, t) ∈ dns_check.candidates A lo hi T ↔
      d ∈ dns_check.domain_names A lo hi ∧ t ∈ T) ∧
    (dns_check.candidates A lo hi T).length =
      ((List.range' lo (hi - lo)).map fun l => A.length ^ l).sum * T.length := by
  have hnd : A.Nodup := hA.imp fun h => ne_of_lt h
  exact ⟨length_itertoolsProduct A L, length_of_mem_itertoolsProduct A L,
    nodup_itertoolsProduct A hnd L, pairwise_lex_itertoolsProduct A hA L,
    mem_candidates A lo hi T, length_candidates A lo hi T⟩

/-- Witness for C5: alphabet {a, b}, lengths 1-2 (Python `range(1, 3)`), one
TLD: 4 two-letter labels, no duplicates, sorted; total (2 + 4) × 1 = 6. -/
theorem C5_witness :
    (itertoolsProduct "ab".toList 2).length = 2 ^ 2 ∧
    (itertoolsProduct "ab".toList 2).Nodup ∧
    (itertoolsProduct "ab".toList 2).Pairwise (List.Lex (· < ·)) ∧
    (("a".toList, "io".toList) ∈
        dns_check.candidates "ab".toList 1 3 ["io".toList] ↔
      "a".toList ∈ dns_check.domain_names "ab".toList 1 3 ∧
        "io".toList ∈ ["io".toList]) ∧
    (dns_check.candidates "ab".toList 1 3 ["io".toList]).length =
      ((List.range' 1 2).map fun l => 2 ^ l).sum * 1 := by
  have h := C5_generator_complete "ab".toList 2 1 3 ["io".toList] (by decide)
  exact ⟨h.1, h.2.2.1, h.2.2.2.1, h.2.2.2.2.1 "a".toList "io".toList, h.2.2.2.2.2⟩

/-- Witness for C10: a mixed-case "No MATCH" body with a parsed domain_name is
still classified `True` (available). -/
theorem C10_witness :
    domain_finder.check_domain_whois
      (domain_finder.WhoisOutcome.ok
        ⟨some "Status: No MATCH for domain example.io".toList, true⟩) = true :=
  C10_whois_marker_precedence
    ⟨some "Status: No MATCH for domain example.io".toList, true⟩
    "No MATCH".toList (by decide) (Or.inl (by decide))

end DomainCheck
